import Mathlib

/-!
Verification development for the publish-orchestration pipeline and the
row-to-entity mapper of the yt-upload-automation repository.

The embedding below is a shallow translation of the Python sources:
  domain/models.py                     (Task, TaskStatus, PrivacyStatus, PublishResult)
  domain/services.py                   (PublishService.publish_task and helpers)
  adapters/google_sheets_repository.py (header resolution, row parsing, write-back)

Python strings are modelled as Lean String values; the string helpers used
by the source (str.strip, str.lower, str.split, len, sorted) are implemented
structurally over the underlying character list so that every definition
evaluates by kernel reduction.
-/

namespace YtUpload

/-- Characters removed by Python str.strip with no arguments (ASCII whitespace;
the source data is ASCII spreadsheet text). -/
def isPySpace (c : Char) : Bool :=
  c = ' ' || c = '\t' || c = '\n' || c = '\r' || c = '\x0b' || c = '\x0c'

/-- Python str.strip on the character list: drop whitespace from both ends. -/
def stripChars (l : List Char) : List Char :=
  ((l.dropWhile isPySpace).reverse.dropWhile isPySpace).reverse

/-- Python str.strip. -/
def pyStrip (s : String) : String := ⟨stripChars s.data⟩

/-- Python str.lower (ASCII case folding, matching the spreadsheet data). -/
def pyLower (s : String) : String := ⟨s.data.map Char.toLower⟩

/-- Header-cell normalisation used throughout the repository: strip then lower. -/
def normalizeName (s : String) : String := pyLower (pyStrip s)

/-- Python str.split on a comma, accumulator-based; splitting a nonempty
string never returns an empty list. -/
def splitCommaAux : List Char → List Char → List String
  | [], acc => [⟨acc.reverse⟩]
  | c :: rest, acc =>
      if c = ',' then ⟨acc.reverse⟩ :: splitCommaAux rest []
      else splitCommaAux rest (c :: acc)

/-- Python value.split on a comma. -/
def splitComma (s : String) : List String := splitCommaAux s.data []

/-- Code-point lexicographic comparison of character lists, the order Python
sorted uses on strings. -/
def lexLeChars : List Char → List Char → Bool
  | [], _ => true
  | _ :: _, [] => false
  | a :: as, b :: bs => if a = b then lexLeChars as bs else decide (a < b)

/-- Code-point lexicographic order on strings. -/
def lexLe (a b : String) : Bool := lexLeChars a.data b.data

/-- Python sorted on a list of strings (the lists sorted by the source are
duplicate-free, so any sort computes the same result). -/
def sortStrings (l : List String) : List String :=
  List.insertionSort (fun a b => lexLe a b = true) l

/-- Python truthiness of an optional string: false for None and for the
empty string. -/
def optTruthy : Option String → Bool
  | none => false
  | some s => !(s = "")

/-- TaskStatus from domain/models.py. -/
inductive TaskStatus where
  | ready
  | inProgress
  | scheduled
  | failed
  | validated
  | dryRunOk
deriving Repr, DecidableEq

/-- String value of each TaskStatus member (the str-enum values). -/
def TaskStatus.str : TaskStatus → String
  | .ready => "READY"
  | .inProgress => "IN_PROGRESS"
  | .scheduled => "SCHEDULED"
  | .failed => "FAILED"
  | .validated => "VALIDATED"
  | .dryRunOk => "DRY_RUN_OK"

/-- Constructing TaskStatus from a string, as the Python enum call does;
none models the ValueError raised for an unrecognised value. -/
def parseTaskStatus (s : String) : Option TaskStatus :=
  if s = "READY" then some .ready
  else if s = "IN_PROGRESS" then some .inProgress
  else if s = "SCHEDULED" then some .scheduled
  else if s = "FAILED" then some .failed
  else if s = "VALIDATED" then some .validated
  else if s = "DRY_RUN_OK" then some .dryRunOk
  else none

/-- PrivacyStatus from domain/models.py (pub, unlisted, priv stand for the
public, unlisted and private enum members; private is a Lean keyword). -/
inductive PrivacyStatus where
  | pub
  | unlisted
  | priv
deriving Repr, DecidableEq

/-- Constructing PrivacyStatus from a string, as the Python enum call does. -/
def parsePrivacyStatus (s : String) : Option PrivacyStatus :=
  if s = "public" then some .pub
  else if s = "unlisted" then some .unlisted
  else if s = "private" then some .priv
  else none

/-- Task dataclass from domain/models.py. Parsed datetimes are kept as the
value produced by the datetime oracle (see Oracle below); timestamps carry
no logic in the verified code paths. -/
structure Task where
  task_id : String
  row_index : Nat
  media_reference : String
  title : String
  thumbnail_reference : Option String := none
  description : String := ""
  tags : List String := []
  category_id : String := "22"
  publish_at : Option String := none
  privacy_status : PrivacyStatus := .priv
  status : TaskStatus := .ready
  platform_media_id : Option String := none
  error_message : Option String := none
  attempts : Int := 0
  last_attempt_at : Option String := none
  created_at : Option String := none
  updated_at : Option String := none
deriving Repr, DecidableEq

/-- PublishResult dataclass from domain/models.py. -/
structure PublishResult where
  success : Bool
  media_id : Option String := none
  status : Option TaskStatus := none
  publish_at : Option String := none
  error_message : Option String := none
  upload_time : Option String := none
  thumbnail_uploaded : Bool := false
deriving Repr, DecidableEq

deriving instance DecidableEq for Except

/-! Row mapper: GoogleSheetsMetadataRepository column resolution. -/

/-- A resolved name-to-index table (Python dict with string keys; insertKey
below reproduces dict assignment semantics). -/
abbrev HeaderMap := List (String × Nat)

/-- Keys of a header map, in insertion order (dict.keys). -/
def keysOf (m : HeaderMap) : List String := m.map Prod.fst

/-- Dict assignment: overwrite the value when the key exists, append otherwise. -/
def insertKey (m : HeaderMap) (k : String) (v : Nat) : HeaderMap :=
  if m.any (fun p => p.1 = k) then
    m.map (fun p => if p.1 = k then (p.1, v) else p)
  else m ++ [(k, v)]

/-- Dict lookup (keys are unique by construction). -/
def lookupKey (m : HeaderMap) (k : String) : Option Nat :=
  match m with
  | [] => none
  | p :: rest => if p.1 = k then some p.2 else lookupKey rest k

/-- COLUMN_MAP from google_sheets_repository.py: the fixed positional
fallback used when no usable header exists. -/
def COLUMN_MAP : HeaderMap :=
  [("task_id", 0), ("status", 1), ("title", 2), ("video_file_path", 3),
   ("description", 4), ("tags", 5), ("category_id", 6), ("thumbnail_path", 7),
   ("publish_at", 8), ("privacy_status", 9), ("youtube_video_id", 10),
   ("error_message", 11), ("attempts", 12), ("last_attempt_at", 13),
   ("created_at", 14), ("updated_at", 15)]

/-- EXPECTED_HEADERS from google_sheets_repository.py (a Python set; listed
here in the source order). -/
def EXPECTED_HEADERS : List String :=
  ["task_id", "status", "title", "video_file_path", "description", "tags",
   "category_id", "thumbnail_path", "publish_at", "privacy_status",
   "youtube_video_id", "error_message", "attempts", "last_attempt_at",
   "created_at", "updated_at"]

/-- REQUIRED_COLUMNS from google_sheets_repository.py. -/
def REQUIRED_COLUMNS : List String :=
  ["task_id", "video_file_path", "title", "description", "publish_at",
   "status", "youtube_video_id", "error_message"]

/-- The loop body of build_header_map: walk the header cells with their
indices, inserting each nonempty normalised name. -/
def buildPairsFrom : HeaderMap → Nat → List String → HeaderMap
  | acc, _, [] => acc
  | acc, i, cell :: rest =>
      let n := normalizeName cell
      buildPairsFrom (if n = "" then acc else insertKey acc n i) (i + 1) rest

/-- The name-to-index table built from a header row. -/
def buildPairs (header : List String) : HeaderMap := buildPairsFrom [] 0 header

/-- The normalised nonempty names of a header row (the key set of the dict
built by the loop above, as a list possibly with duplicates). -/
def headerNames (header : List String) : List String :=
  (header.map normalizeName).filter (fun n => !(n = ""))

/-- Outcome of _build_header_map: positional fallback (the Python None),
a name map, or the raised schema error carrying the sorted missing and
found column names. -/
inductive HeaderResolution where
  | fallbackMap : HeaderResolution
  | nameMap : HeaderMap → HeaderResolution
  | schemaError : List String → List String → HeaderResolution
deriving Repr, DecidableEq

/-- Recogniser for the schema-error outcome. -/
def isSchemaError : HeaderResolution → Bool
  | .schemaError _ _ => true
  | _ => false

/-- The header map selected by a resolution (None for the fallback). -/
def hmOf : HeaderResolution → Option HeaderMap
  | .nameMap m => some m
  | _ => none

/-- Translation of _build_header_map. Set operations of the source are
expressed over the fixed lists: found-expected is the intersection of the
key set with EXPECTED_HEADERS, missing-required the difference of
REQUIRED_COLUMNS from the key set, both rendered sorted as Python does. -/
def buildHeaderMap (header : List String) : HeaderResolution :=
  if header.isEmpty then .fallbackMap
  else
    let m := buildPairs header
    let foundExpected := EXPECTED_HEADERS.filter (fun c => (keysOf m).contains c)
    if foundExpected.isEmpty then .fallbackMap
    else
      let missingRequired := REQUIRED_COLUMNS.filter (fun c => !((keysOf m).contains c))
      if missingRequired.isEmpty then .nameMap m
      else .schemaError (sortStrings missingRequired) (sortStrings foundExpected)

/-- Resolution of a column name to an index in _get_cell and
_get_column_index: the normalised name through the header map when present,
otherwise the raw name through COLUMN_MAP. -/
def resolveIndex (hm : Option HeaderMap) (columnName : String) : Option Nat :=
  match hm with
  | some m =>
      match lookupKey m (normalizeName columnName) with
      | some i => some i
      | none => lookupKey COLUMN_MAP columnName
  | none => lookupKey COLUMN_MAP columnName

/-- Guarded cell access of _get_cell at a resolved index: none when the
index is out of range for the row or the stripped value is empty. -/
def cellAt (row : List String) (i : Nat) : Option String :=
  match row[i]? with
  | none => none
  | some cell =>
      let v := pyStrip cell
      if v = "" then none else some v

/-- Core of _get_cell: the stripped cell value when the column resolves,
the index is in range and the stripped value is nonempty; none otherwise
(the caller substitutes its default). -/
def getCellCore (row : List String) (columnName : String) (hm : Option HeaderMap) :
    Option String :=
  (resolveIndex hm columnName).bind (cellAt row)

/-- Translation of _get_cell with a string default. -/
def getCell (row : List String) (columnName : String) (dflt : String)
    (hm : Option HeaderMap) : String :=
  (getCellCore row columnName hm).getD dflt

/-- Translation of _get_cell with default None. -/
def getCellOpt (row : List String) (columnName : String) (hm : Option HeaderMap) :
    Option String :=
  getCellCore row columnName hm

/-- Row padding performed by get_ready_tasks before any cell access. -/
def padRow (row : List String) (padLength : Nat) : List String :=
  row ++ List.replicate (padLength - row.length) ""

/-- Padding length chosen by get_ready_tasks: one past the largest index of
the header map when one exists, the size of COLUMN_MAP otherwise. -/
def padLengthOf (hm : Option HeaderMap) : Nat :=
  match hm with
  | some m => if m.isEmpty then 0 else (m.map Prod.snd).foldl Nat.max 0 + 1
  | none => COLUMN_MAP.length

/-- External parsing routines used by _parse_row that live outside this
repository: Python datetime.fromisoformat (the result is kept as an
uninterpreted string) and the int builtin. Theorems about the mapper hold
for every oracle. -/
structure Oracle where
  fromIsoFormat : String → Option String
  strToInt : String → Option Int

/-- Python value.endswith on the single character Z. -/
def endsWithZ (s : String) : Bool :=
  match s.data.getLast? with
  | some c => c = 'Z'
  | none => false

/-- Python value with the last character removed. -/
def dropLastChar (s : String) : String := ⟨s.data.dropLast⟩

/-- Translation of _parse_datetime; the error value models the
ValidationError message raised on a malformed timestamp. -/
def parseDatetimePy (oracle : Oracle) (value : Option String) :
    Except String (Option String) :=
  match value with
  | none => .ok none
  | some s =>
      if s = "" then .ok none
      else
        let core := if endsWithZ s then dropLastChar s else s
        match oracle.fromIsoFormat core with
        | some d => .ok (some d)
        | none => .error ("Invalid datetime format: " ++ s ++ ". Use ISO 8601 format.")

/-- Translation of _parse_int. -/
def parseIntPy (oracle : Oracle) (value : String) : Except String Int :=
  if value = "" then .ok 0
  else
    match oracle.strToInt value with
    | some n => .ok n
    | none => .error ("Invalid integer: " ++ value)

/-- Translation of _parse_row; the error value is the ValidationError
message, checks in source order. -/
def parseRow (oracle : Oracle) (row : List String) (row_index : Nat)
    (hm : Option HeaderMap) : Except String Task :=
  let task_id := getCell row "task_id" "" hm
  let title := getCell row "title" "" hm
  let media_reference := getCell row "video_file_path" "" hm
  let statusStr := getCell row "status" "" hm
  if task_id = "" then .error "task_id is required"
  else if title = "" then .error "title is required"
  else if media_reference = "" then .error "video_file_path (media_reference) is required"
  else if statusStr = "" then .error "status is required"
  else if title.length > 100 then
    .error ("title exceeds 100 characters: " ++ toString title.length)
  else
    let description := getCell row "description" "" hm
    if description.length > 5000 then
      .error ("description exceeds 5000 characters: " ++ toString description.length)
    else
      let tags_str := getCell row "tags" "" hm
      let tags := if tags_str = "" then []
        else ((splitComma tags_str).map pyStrip).filter (fun t => !(t = ""))
      if tags_str.length > 500 then
        .error ("tags exceed 500 characters: " ++ toString tags_str.length)
      else
        let category_id := getCell row "category_id" "22" hm
        let thumbnail_reference := getCellOpt row "thumbnail_path" hm
        match parseDatetimePy oracle (getCellOpt row "publish_at" hm) with
        | .error e => .error e
        | .ok publish_at =>
          let privacyStr := getCell row "privacy_status" "private" hm
          match parsePrivacyStatus privacyStr with
          | none =>
              .error ("Invalid privacy_status: " ++ privacyStr ++
                ". Must be one of: public, unlisted, private")
          | some privacy_status =>
            match parseTaskStatus statusStr with
            | none => .error ("Invalid status: " ++ statusStr)
            | some task_status =>
              let platform_media_id := getCellOpt row "youtube_video_id" hm
              let error_message := getCellOpt row "error_message" hm
              match parseIntPy oracle (getCell row "attempts" "0" hm) with
              | .error e => .error e
              | .ok attempts =>
                if attempts < 0 then
                  .error ("attempts must be non-negative: " ++ toString attempts)
                else
                  match parseDatetimePy oracle (getCellOpt row "last_attempt_at" hm) with
                  | .error e => .error e
                  | .ok last_attempt_at =>
                    match parseDatetimePy oracle (getCellOpt row "created_at" hm) with
                    | .error e => .error e
                    | .ok created_at =>
                      match parseDatetimePy oracle (getCellOpt row "updated_at" hm) with
                      | .error e => .error e
                      | .ok updated_at =>
                        .ok { task_id := task_id, row_index := row_index,
                              media_reference := media_reference,
                              thumbnail_reference := thumbnail_reference,
                              title := title, description := description,
                              tags := tags, category_id := category_id,
                              publish_at := publish_at,
                              privacy_status := privacy_status,
                              status := task_status,
                              platform_media_id := platform_media_id,
                              error_message := error_message,
                              attempts := attempts,
                              last_attempt_at := last_attempt_at,
                              created_at := created_at,
                              updated_at := updated_at }

/-- Outcome of one iteration of the row loop in get_ready_tasks. -/
inductive RowOutcome where
  | notReady : RowOutcome
  | parsed : Task → RowOutcome
  | invalid : String → RowOutcome
deriving Repr, DecidableEq

/-- One iteration of the row loop in get_ready_tasks: pad the row, read the
status cell, skip non-ready rows, otherwise parse; a ValidationError becomes
the invalid outcome (the best-effort FAILED write-back). -/
def processRow (oracle : Oracle) (readyStatus : String) (hm : Option HeaderMap)
    (padLength : Nat) (rowIndex : Nat) (row : List String) : RowOutcome :=
  let padded := padRow row padLength
  let status := getCell padded "status" "" hm
  if status = readyStatus then
    match parseRow oracle padded rowIndex hm with
    | .ok t => .parsed t
    | .error msg => .invalid msg
  else .notReady

/-- The row loop of get_ready_tasks over the data rows, starting at sheet
row index i (the first data row is row 2, the header row 1). Returns the
accepted tasks and the best-effort FAILED write-backs of invalid rows, each
in physical order. -/
def processRows (oracle : Oracle) (readyStatus : String) (hm : Option HeaderMap)
    (padLength : Nat) : Nat → List (List String) → List Task × List (Nat × String)
  | _, [] => ([], [])
  | i, row :: rest =>
      match processRow oracle readyStatus hm padLength i row with
      | .notReady => processRows oracle readyStatus hm padLength (i + 1) rest
      | .parsed t =>
          (t :: (processRows oracle readyStatus hm padLength (i + 1) rest).1,
           (processRows oracle readyStatus hm padLength (i + 1) rest).2)
      | .invalid msg =>
          ((processRows oracle readyStatus hm padLength (i + 1) rest).1,
           (i, msg) :: (processRows oracle readyStatus hm padLength (i + 1) rest).2)

/-- Result of a successful get_ready_tasks call: the task list and the
best-effort FAILED write-backs performed for invalid rows. -/
structure ReadResult where
  tasks : List Task
  failedWrites : List (Nat × String)
deriving Repr, DecidableEq

/-- Translation of get_ready_tasks: the first row is the header; a schema
error aborts the whole read (the raised MetadataRepositoryError carrying the
missing and found column names); otherwise every data row is processed by
the row loop. -/
def getReadyTasks (oracle : Oracle) (readyStatus : String)
    (rows : List (List String)) : Except (List String × List String) ReadResult :=
  match rows with
  | [] => .ok ⟨[], []⟩
  | header :: dataRows =>
      match buildHeaderMap header with
      | .schemaError missing found => .error (missing, found)
      | res =>
          let hm := hmOf res
          let out := processRows oracle readyStatus hm (padLengthOf hm) 2 dataRows
          .ok ⟨out.1, out.2⟩

/-! Write-back: GoogleSheetsMetadataRepository.update_task_status. -/

/-- Status translation performed by update_task_status before writing:
the domain status IN_PROGRESS is displayed as UPLOADING in the sheet. -/
def displayStatus (status : String) : String :=
  if status = "IN_PROGRESS" then "UPLOADING" else status

/-- One cell write of the batched update, identified by the column name the
source resolves to an index. -/
structure CellWrite where
  column : String
  value : String
deriving Repr, DecidableEq

/-- The batched cell writes issued by update_task_status, in source order:
the status cell always (with the display translation), the optional fields
only when a value is passed (a None argument leaves the cell untouched),
and the updated_at stamp always. -/
def updateTaskStatusWrites (status : String) (youtube_video_id : Option String)
    (error_message : Option String) (video_file_path : Option String)
    (now : String) : List CellWrite :=
  [⟨"status", displayStatus status⟩]
    ++ (match youtube_video_id with
        | some v => [⟨"youtube_video_id", v⟩]
        | none => [])
    ++ (match error_message with
        | some v => [⟨"error_message", v⟩]
        | none => [])
    ++ (match video_file_path with
        | some v => [⟨"video_file_path", v⟩]
        | none => [])
    ++ [⟨"updated_at", now⟩]

/-- The cells of one backing-table row touched by update_task_status. -/
structure SheetRow where
  statusCell : String := ""
  videoIdCell : String := ""
  errorCell : String := ""
  videoPathCell : String := ""
  updatedAtCell : String := ""
deriving Repr, DecidableEq

/-- Effect of one cell write on a backing-table row. -/
def applyCellWrite (r : SheetRow) (w : CellWrite) : SheetRow :=
  if w.column = "status" then { r with statusCell := w.value }
  else if w.column = "youtube_video_id" then { r with videoIdCell := w.value }
  else if w.column = "error_message" then { r with errorCell := w.value }
  else if w.column = "video_file_path" then { r with videoPathCell := w.value }
  else if w.column = "updated_at" then { r with updatedAtCell := w.value }
  else r

/-- Effect of one update_task_status call on a backing-table row. -/
def applyUpdateTaskStatus (r : SheetRow) (status : String)
    (youtube_video_id : Option String) (error_message : Option String)
    (video_file_path : Option String) (now : String) : SheetRow :=
  (updateTaskStatusWrites status youtube_video_id error_message video_file_path now).foldl
    applyCellWrite r

/-! Orchestrator: PublishService.publish_task from domain/services.py. -/

/-- One external call made by publish_task, recorded in order. The
updateStatus record carries the arguments passed to
metadata_repo.update_task_status (status, youtube_video_id, error_message,
video_file_path). -/
inductive Call where
  | updateStatus (rowIndex : Nat) (status : String) (youtube_video_id : Option String)
      (error_message : Option String) (video_file_path : Option String) : Call
  | incrementAttempts (rowIndex : Nat) : Call
  | markInProgress (ref : String) : Call
  | publishMedia (taskId : String) (ref : String) : Call
  | uploadThumbnail (mediaId : Option String) (ref : String) : Call
deriving Repr, DecidableEq

/-- Behaviour of one media_uploader.publish_media call: a returned
PublishResult, or a raised RetryableError, PermanentError, or any other
exception. -/
inductive UploadOutcome where
  | result : PublishResult → UploadOutcome
  | retryableErr : String → UploadOutcome
  | permanentErr : String → UploadOutcome
  | unexpectedErr : String → UploadOutcome
deriving Repr, DecidableEq

/-- Behaviour of the collaborators during one publish_task call. Only the
knobs that can change the observable run are present: the failure of the
first update_task_status call aborts the task, while every later
update_task_status, increment_attempts and upload_thumbnail failure is
caught and logged by the source with the identical continuation, so those
calls are recorded in the trace and their result is irrelevant. -/
structure Env where
  updateStatusErr0 : Option String := none
  markInProgressRes : String → Except String String := fun r => .ok r
  publishMediaRes : Nat → UploadOutcome

/-- Constructor state of PublishService: max_retries is stored by __init__
and never read by publish_task or _upload_media; hasUploader is false when
media_uploader is None. -/
structure PublishService where
  max_retries : Nat := 1
  dry_run : Bool := false
  hasUploader : Bool := true
deriving Repr, DecidableEq

/-- Observable result of one publish_task call: the returned outcome
string, the ordered trace of external calls, and the task object after its
in-place mutation. -/
structure PublishRun where
  outcome : String
  trace : List Call
  finalTask : Task
deriving Repr, DecidableEq

/-- The update_task_status call issued by _mark_failed. -/
def markFailedCall (task : Task) (msg : String) : Call :=
  .updateStatus task.row_index "FAILED" none (some msg) none

/-- Translation of PublishService.publish_task together with its helpers
_upload_media, _upload_thumbnail and _mark_failed. The source performs no
retry loop: _upload_media increments the attempts counter once and calls
the uploader once, turning any raised uploader error into a failed
PublishResult. -/
def publishTask (svc : PublishService) (env : Env) (task : Task) : PublishRun :=
  if optTruthy task.platform_media_id then
    { outcome := "skipped", trace := [], finalTask := task }
  else
    let c1 : Call := .updateStatus task.row_index "IN_PROGRESS" none none none
    match env.updateStatusErr0 with
    | some e =>
        let msg := "Failed to mark task as IN_PROGRESS in metadata repository: " ++ e
        { outcome := "failed", trace := [c1, markFailedCall task msg], finalTask := task }
    | none =>
        let c2 : Call := .markInProgress task.media_reference
        match env.markInProgressRes task.media_reference with
        | .error e =>
            let msg := "Failed to mark media as IN_PROGRESS: " ++ e
            { outcome := "failed", trace := [c1, c2, markFailedCall task msg],
              finalTask := task }
        | .ok newRef =>
            let task := { task with media_reference := newRef }
            if svc.dry_run || !svc.hasUploader then
              { outcome := "success",
                trace := [c1, c2, .updateStatus task.row_index "DRY_RUN_OK" none none none],
                finalTask := task }
            else
              let c3 : Call := .incrementAttempts task.row_index
              let c4 : Call := .publishMedia task.task_id task.media_reference
              let result : PublishResult :=
                match env.publishMediaRes 0 with
                | .result r => r
                | .retryableErr m => { success := false, error_message := some m }
                | .permanentErr m => { success := false, error_message := some m }
                | .unexpectedErr m =>
                    { success := false,
                      error_message := some ("Unexpected error during upload: " ++ m) }
              if result.success then
                let thumbCalls : List Call :=
                  match task.thumbnail_reference with
                  | some tr => if tr = "" then [] else [.uploadThumbnail result.media_id tr]
                  | none => []
                { outcome := "success",
                  trace := [c1, c2, c3, c4] ++ thumbCalls ++
                    [.updateStatus task.row_index "SCHEDULED" result.media_id none none],
                  finalTask := task }
              else
                let msg :=
                  match result.error_message with
                  | some m => if m = "" then "Unknown error" else m
                  | none => "Unknown error"
                { outcome := "failed", trace := [c1, c2, c3, c4, markFailedCall task msg],
                  finalTask := task }

/-- Number of media_uploader.publish_media calls in a trace. -/
def countUploaderCalls (tr : List Call) : Nat :=
  tr.countP fun c => match c with
    | .publishMedia _ _ => true
    | _ => false

/-- Number of metadata_repo.increment_attempts calls in a trace. -/
def countIncrementCalls (tr : List Call) : Nat :=
  tr.countP fun c => match c with
    | .incrementAttempts _ => true
    | _ => false

/-- Number of media_store.mark_in_progress calls in a trace. -/
def countMediaStoreCalls (tr : List Call) : Nat :=
  tr.countP fun c => match c with
    | .markInProgress _ => true
    | _ => false

/-- Number of metadata-store calls (update_task_status or
increment_attempts) in a trace. -/
def countMetadataCalls (tr : List Call) : Nat :=
  tr.countP fun c => match c with
    | .updateStatus _ _ _ _ _ => true
    | .incrementAttempts _ => true
    | _ => false

/-! Concrete fixtures used by witnesses and counterexamples. -/

/-- A header row listing every expected column in the legacy order. -/
def headerW : List String :=
  ["task_id", "status", "title", "video_file_path", "description", "tags",
   "category_id", "thumbnail_path", "publish_at", "privacy_status",
   "youtube_video_id", "error_message", "attempts", "last_attempt_at",
   "created_at", "updated_at"]

/-- A header row with some expected names but missing required ones. -/
def headerMissingW : List String := ["task_id", "title"]

/-- A header row with no recognisable column name. -/
def headerUnknownW : List String := ["foo", "bar"]

/-- An oracle for concrete runs: timestamps parse to themselves and the
only integer literal the fixtures use is zero. -/
def oracleW : Oracle :=
  { fromIsoFormat := fun s => some s,
    strToInt := fun s => if s = "0" then some 0 else none }

/-- A valid ready data row. -/
def goodRowW : List String := ["t1", "READY", "My Video", "/videos/test.mp4"]

/-- Another valid ready data row. -/
def goodRow3W : List String := ["t3", "READY", "Other Video", "/videos/other.mp4"]

/-- A ready data row with an empty title, failing row validation. -/
def badRowW : List String := ["t2", "READY", ""]

/-- A fresh ready task with no platform media id. -/
def taskFreshW : Task :=
  { task_id := "t1", row_index := 2, media_reference := "/videos/test.mp4",
    title := "My Video" }

/-- A task already published (non-empty platform media id). -/
def taskDoneW : Task := { taskFreshW with platform_media_id := some "abc123" }

/-- Collaborators whose uploader always raises a RetryableError. -/
def envRetryableW : Env :=
  { publishMediaRes := fun _ => .retryableErr "HTTP 429: rate limit exceeded" }

/-- Collaborators whose uploader always raises a PermanentError. -/
def envPermanentW : Env :=
  { publishMediaRes := fun _ => .permanentErr "Invalid credentials" }

/-- Collaborators whose uploader succeeds with media id abc123. -/
def envSuccessW : Env :=
  { publishMediaRes := fun _ => .result { success := true, media_id := some "abc123" } }

/-- Collaborators whose media store fails the mark-in-progress signal. -/
def envMarkFailW : Env :=
  { markInProgressRes := fun _ =>
      .error "[FILE_NOT_FOUND] Media does not exist: /videos/test.mp4",
    publishMediaRes := fun _ => .retryableErr "unused" }

/-- A backing-table row holding a stale error message from an earlier
failed attempt. -/
def rowPrevFailedW : SheetRow := { statusCell := "READY", errorCell := "previous failure" }

/-! Helper lemmas about the header-map construction and the row loop. -/

/-- Overwriting the value of an existing key does not change the key list. -/
theorem keysOf_map_subst (m : HeaderMap) (k : String) (v : Nat) :
    keysOf (m.map (fun p => if p.1 = k then (p.1, v) else p)) = keysOf m := by
  induction m with
  | nil => rfl
  | cons p rest ih =>
      simp only [List.map_cons, keysOf, List.map] at *
      rw [show ((if p.1 = k then (p.1, v) else p)).1 = p.1 by split <;> rfl]
      exact congrArg (p.1 :: ·) ih

/-- Membership in the keys of a dict after an assignment. -/
theorem mem_keys_insertKey (m : HeaderMap) (k : String) (v : Nat) (x : String) :
    x ∈ keysOf (insertKey m k v) ↔ x ∈ keysOf m ∨ x = k := by
  unfold insertKey
  by_cases h : m.any (fun p => p.1 = k) = true
  · have hk : k ∈ keysOf m := by
      rcases List.any_eq_true.mp h with ⟨p, hp, he⟩
      have : p.1 = k := by simpa using he
      exact this ▸ List.mem_map_of_mem Prod.fst hp
    simp only [h, if_true, keysOf_map_subst]
    constructor
    · exact Or.inl
    · rintro (hx | rfl)
      · exact hx
      · exact hk
  · simp only [h, if_false, keysOf, List.map_append]
    simp [keysOf]

/-- The normalised nonempty names of a header, one cons step. -/
theorem headerNames_cons (cell : String) (rest : List String) :
    headerNames (cell :: rest) =
      if normalizeName cell = "" then headerNames rest
      else normalizeName cell :: headerNames rest := by
  simp only [headerNames, List.map_cons, List.filter_cons]
  by_cases h : normalizeName cell = "" <;> simp [h]

/-- Membership in the keys of the table built by the header loop. -/
theorem mem_keys_buildPairsFrom (l : List String) (acc : HeaderMap) (i : Nat)
    (x : String) :
    x ∈ keysOf (buildPairsFrom acc i l) ↔ x ∈ keysOf acc ∨ x ∈ headerNames l := by
  induction l generalizing acc i with
  | nil => simp [buildPairsFrom, headerNames]
  | cons cell rest ih =>
      rw [buildPairsFrom, headerNames_cons]
      by_cases h : normalizeName cell = ""
      · simp [h, ih]
      · simp only [h, if_false, ih, mem_keys_insertKey, List.mem_cons]
        tauto

/-- A name is a key of the built header map exactly when it occurs among
the normalised nonempty header cells. -/
theorem mem_keys_buildPairs (header : List String) (x : String) :
    x ∈ keysOf (buildPairs header) ↔ x ∈ headerNames header := by
  rw [buildPairs, mem_keys_buildPairsFrom]
  simp [keysOf]

/-- Membership is preserved by the model of Python sorted. -/
theorem mem_sortStrings (l : List String) (x : String) :
    x ∈ sortStrings l ↔ x ∈ l :=
  List.mem_insertionSort _

/-- The row loop distributes over list append, shifting the row index by
the length of the first part. -/
theorem processRows_append (o : Oracle) (rs : String) (hm : Option HeaderMap)
    (pl : Nat) (l1 l2 : List (List String)) (i : Nat) :
    processRows o rs hm pl i (l1 ++ l2) =
      ((processRows o rs hm pl i l1).1 ++ (processRows o rs hm pl (i + l1.length) l2).1,
       (processRows o rs hm pl i l1).2 ++ (processRows o rs hm pl (i + l1.length) l2).2) := by
  induction l1 generalizing i with
  | nil => simp [processRows]
  | cons row rest ih =>
      have harith : i + 1 + rest.length = i + (rest.length + 1) := by omega
      simp only [List.cons_append, processRows, List.length_cons]
      cases h : processRow o rs hm pl i row <;> simp [h, ih (i + 1), harith]

/-! Claim theorems. -/

/-- C4: for every task whose platform_media_id is non-empty, publish_task
returns the skipped outcome with an empty call trace, so the Media Store,
the Media Uploader and the Metadata Store each receive zero calls and the
task is unchanged. -/
theorem publishTask_idempotency_gate (svc : PublishService) (env : Env) (task : Task)
    (h : optTruthy task.platform_media_id = true) :
    publishTask svc env task = { outcome := "skipped", trace := [], finalTask := task } ∧
    countMediaStoreCalls (publishTask svc env task).trace = 0 ∧
    countUploaderCalls (publishTask svc env task).trace = 0 ∧
    countMetadataCalls (publishTask svc env task).trace = 0 := by
  unfold publishTask
  simp [h, countMediaStoreCalls, countUploaderCalls, countMetadataCalls]

/-- Witness for C4 at a concrete already-published task. -/
theorem publishTask_idempotency_gate_witness :
    optTruthy taskDoneW.platform_media_id = true ∧
    publishTask {} envRetryableW taskDoneW =
      { outcome := "skipped", trace := [], finalTask := taskDoneW } :=
  ⟨by decide, (publishTask_idempotency_gate {} envRetryableW taskDoneW (by decide)).1⟩

/-- C5: whatever the stored max_retries value, a PermanentError from the
uploader on the first call leaves exactly one uploader call and one
attempts increment in the trace and the task ends in the failed outcome. -/
theorem publishTask_permanent_single_call (svc : PublishService) (env : Env)
    (task : Task) (msg ref2 : String)
    (hdry : svc.dry_run = false) (hup : svc.hasUploader = true)
    (hgate : optTruthy task.platform_media_id = false)
    (hmeta : env.updateStatusErr0 = none)
    (hmark : env.markInProgressRes task.media_reference = .ok ref2)
    (hperm : ∀ n, env.publishMediaRes n = .permanentErr msg) :
    (publishTask svc env task).outcome = "failed" ∧
    countUploaderCalls (publishTask svc env task).trace = 1 ∧
    countIncrementCalls (publishTask svc env task).trace = 1 := by
  unfold publishTask
  simp [hgate, hmeta, hmark, hdry, hup, hperm 0, markFailedCall,
    countUploaderCalls, countIncrementCalls]

/-- Witness for C5 at a concrete fresh task with max_retries stored as 7. -/
theorem publishTask_permanent_single_call_witness :
    ({ max_retries := 7 } : PublishService).dry_run = false ∧
    optTruthy taskFreshW.platform_media_id = false ∧
    (publishTask { max_retries := 7 } envPermanentW taskFreshW).outcome = "failed" ∧
    countUploaderCalls (publishTask { max_retries := 7 } envPermanentW taskFreshW).trace = 1 ∧
    countIncrementCalls (publishTask { max_retries := 7 } envPermanentW taskFreshW).trace = 1 := by
  refine ⟨by decide, by decide, ?_⟩
  have h := publishTask_permanent_single_call { max_retries := 7 } envPermanentW taskFreshW
    "Invalid credentials" "/videos/test.mp4" (by decide) (by decide) (by decide) rfl
    (by decide) (fun n => rfl)
  exact h

/-- C1 evidence: with max_retries stored as 2 and an uploader that always
raises a RetryableError, publish_task makes exactly one uploader call and
one attempts increment before returning the failed outcome, so the number
of calls differs from the configured max_retries (the retry loop of the
claim is absent from _upload_media). -/
theorem publishTask_retry_not_implemented :
    optTruthy taskFreshW.platform_media_id = false ∧
    ({ max_retries := 2 } : PublishService).max_retries = 2 ∧
    (publishTask { max_retries := 2 } envRetryableW taskFreshW).outcome = "failed" ∧
    countUploaderCalls (publishTask { max_retries := 2 } envRetryableW taskFreshW).trace = 1 ∧
    countIncrementCalls (publishTask { max_retries := 2 } envRetryableW taskFreshW).trace = 1 ∧
    countUploaderCalls (publishTask { max_retries := 2 } envRetryableW taskFreshW).trace ≠
      ({ max_retries := 2 } : PublishService).max_retries := by
  decide

/-- C3 counterexample: when the media-store mark-in-progress signal fails,
the first external call after the idempotency gate is the metadata-store
IN_PROGRESS status write, not the Media Store call, so a metadata-store
IN_PROGRESS write has already occurred when mark_in_progress runs. -/
theorem publishTask_metadata_write_first :
    (publishTask {} envMarkFailW taskFreshW).trace.head? =
      some (.updateStatus 2 "IN_PROGRESS" none none none) ∧
    (publishTask {} envMarkFailW taskFreshW).trace.head? ≠
      some (.markInProgress "/videos/test.mp4") ∧
    countMetadataCalls ((publishTask {} envMarkFailW taskFreshW).trace.take 1) = 1 := by
  decide

/-- C3 amended: after the idempotency gate publish_task first writes
IN_PROGRESS to the metadata store, then calls mark_in_progress; when that
call fails the task is marked FAILED with the adapter error and processing
stops with no uploader call, the metadata-store IN_PROGRESS write having
already occurred. -/
theorem publishTask_mark_in_progress_failure (svc : PublishService) (env : Env)
    (task : Task) (e : String)
    (hgate : optTruthy task.platform_media_id = false)
    (hmeta : env.updateStatusErr0 = none)
    (hmark : env.markInProgressRes task.media_reference = .error e) :
    publishTask svc env task =
      { outcome := "failed",
        trace := [.updateStatus task.row_index "IN_PROGRESS" none none none,
                  .markInProgress task.media_reference,
                  .updateStatus task.row_index "FAILED" none
                    (some ("Failed to mark media as IN_PROGRESS: " ++ e)) none],
        finalTask := task } ∧
    countUploaderCalls (publishTask svc env task).trace = 0 := by
  unfold publishTask
  simp [hgate, hmeta, hmark, markFailedCall, countUploaderCalls]

/-- Witness for the amended C3 at a concrete failing media store. -/
theorem publishTask_mark_in_progress_failure_witness :
    optTruthy taskFreshW.platform_media_id = false ∧
    (publishTask {} envMarkFailW taskFreshW).outcome = "failed" ∧
    countUploaderCalls (publishTask {} envMarkFailW taskFreshW).trace = 0 := by
  refine ⟨by decide, ?_, ?_⟩
  · have h := publishTask_mark_in_progress_failure {} envMarkFailW taskFreshW
      "[FILE_NOT_FOUND] Media does not exist: /videos/test.mp4" (by decide) rfl rfl
    rw [h.1]
  · exact (publishTask_mark_in_progress_failure {} envMarkFailW taskFreshW
      "[FILE_NOT_FOUND] Media does not exist: /videos/test.mp4" (by decide) rfl rfl).2

/-- C2 counterexample: the success write-back passes error_message as None,
and update_task_status skips None fields, so a stale error message survives.
After the success write-back of the run below the row reads SCHEDULED while
its error cell still holds the earlier failure text, refuting both the
clear-error step and the SCHEDULED-implies-error-unset invariant. -/
theorem successWriteback_keeps_stale_error :
    (publishTask {} envSuccessW taskFreshW).outcome = "success" ∧
    (publishTask {} envSuccessW taskFreshW).trace.getLast? =
      some (.updateStatus 2 "SCHEDULED" (some "abc123") none none) ∧
    (applyUpdateTaskStatus rowPrevFailedW "SCHEDULED" (some "abc123") none none
      "2026-01-01T00:00:00Z").statusCell = "SCHEDULED" ∧
    (applyUpdateTaskStatus rowPrevFailedW "SCHEDULED" (some "abc123") none none
      "2026-01-01T00:00:00Z").errorCell = "previous failure" ∧
    "previous failure" ≠ "" := by
  decide

/-- C2 amended: when publish_task succeeds after an actual upload whose
result carries a media id, the terminal write-back is an update_task_status
call with status SCHEDULED and that media id and with error_message None;
applied to a backing-table row it sets the status and media-id cells and
stamps updated_at while leaving the error cell (and the media-reference
cell) unchanged. -/
theorem publishTask_success_writeback (svc : PublishService) (env : Env)
    (task : Task) (res : PublishResult) (mid : String) (r : SheetRow)
    (now ref2 : String)
    (hdry : svc.dry_run = false) (hup : svc.hasUploader = true)
    (hgate : optTruthy task.platform_media_id = false)
    (hmeta : env.updateStatusErr0 = none)
    (hmark : env.markInProgressRes task.media_reference = .ok ref2)
    (hres : env.publishMediaRes 0 = .result res)
    (hsucc : res.success = true) (hid : res.media_id = some mid) :
    (publishTask svc env task).outcome = "success" ∧
    (publishTask svc env task).trace.getLast? =
      some (.updateStatus task.row_index "SCHEDULED" (some mid) none none) ∧
    applyUpdateTaskStatus r "SCHEDULED" (some mid) none none now =
      { r with statusCell := "SCHEDULED", videoIdCell := mid, updatedAtCell := now } := by
  refine ⟨?_, ?_, ?_⟩
  · unfold publishTask
    simp [hgate, hmeta, hmark, hdry, hup, hres, hsucc]
  · unfold publishTask
    simp [hgate, hmeta, hmark, hdry, hup, hres, hsucc, hid]
    rw [← List.cons_append, List.getLast?_concat]
  · rfl

/-- Witness for the amended C2 at a concrete successful run. -/
theorem publishTask_success_writeback_witness :
    optTruthy taskFreshW.platform_media_id = false ∧
    (publishTask {} envSuccessW taskFreshW).outcome = "success" ∧
    applyUpdateTaskStatus rowPrevFailedW "SCHEDULED" (some "abc123") none none "t0" =
      { rowPrevFailedW with
          statusCell := "SCHEDULED", videoIdCell := "abc123",
          updatedAtCell := "t0" } := by
  have h := publishTask_success_writeback {} envSuccessW taskFreshW
    { success := true, media_id := some "abc123" } "abc123" rowPrevFailedW "t0"
    "/videos/test.mp4" (by decide) (by decide) (by decide) rfl rfl rfl rfl rfl
  exact ⟨by decide, h.1, h.2.2⟩

/-- The row loop on a decomposition around one invalid row: the invalid row
contributes no task and one failed write, rows before and after are
processed at their own indices. -/
theorem processRows_isolate (oracle : Oracle) (readyStatus : String)
    (hm : Option HeaderMap) (pl : Nat) (rows1 : List (List String))
    (badRow : List String) (rows2 : List (List String)) (msg : String) (i : Nat)
    (hbad : processRow oracle readyStatus hm pl (i + rows1.length) badRow = .invalid msg) :
    processRows oracle readyStatus hm pl i (rows1 ++ badRow :: rows2) =
      ((processRows oracle readyStatus hm pl i rows1).1 ++
         (processRows oracle readyStatus hm pl (i + rows1.length + 1) rows2).1,
       (processRows oracle readyStatus hm pl i rows1).2 ++
         ((i + rows1.length, msg) ::
          (processRows oracle readyStatus hm pl (i + rows1.length + 1) rows2).2)) := by
  rw [processRows_append]
  simp only [processRows, hbad]

/-- C6: a header containing at least one expected column name but missing
some required column name makes build_header_map raise the schema error;
its missing list is exactly the set of required names absent from the
header, its found list exactly the set of expected names present, and
get_ready_tasks aborts with that error, returning no tasks. -/
theorem getReadyTasks_schema_error (header : List String)
    (dataRows : List (List String)) (oracle : Oracle) (readyStatus : String)
    (hfound : ∃ c ∈ headerNames header, c ∈ EXPECTED_HEADERS)
    (hmiss : ∃ c ∈ REQUIRED_COLUMNS, c ∉ headerNames header) :
    ∃ missing found,
      buildHeaderMap header = .schemaError missing found ∧
      (∀ n, n ∈ missing ↔ (n ∈ REQUIRED_COLUMNS ∧ n ∉ headerNames header)) ∧
      (∀ n, n ∈ found ↔ (n ∈ EXPECTED_HEADERS ∧ n ∈ headerNames header)) ∧
      getReadyTasks oracle readyStatus (header :: dataRows) = .error (missing, found) := by
  obtain ⟨cf, hcf1, hcf2⟩ := hfound
  obtain ⟨cm, hcm1, hcm2⟩ := hmiss
  have hne : header.isEmpty = false := by
    cases header with
    | nil => simp [headerNames] at hcf1
    | cons a l => rfl
  have hcont : ∀ x : String,
      ((keysOf (buildPairs header)).contains x = true) ↔ x ∈ headerNames header :=
    fun x => (List.elem_iff).trans (mem_keys_buildPairs header x)
  have hfoundmem : cf ∈ EXPECTED_HEADERS.filter
      (fun c => (keysOf (buildPairs header)).contains c) :=
    List.mem_filter.mpr ⟨hcf2, (hcont cf).mpr hcf1⟩
  have hfe : (EXPECTED_HEADERS.filter
      (fun c => (keysOf (buildPairs header)).contains c)).isEmpty = false := by
    cases hh : EXPECTED_HEADERS.filter (fun c => (keysOf (buildPairs header)).contains c) with
    | nil => rw [hh] at hfoundmem; cases hfoundmem
    | cons a l => rfl
  have hmissmem : cm ∈ REQUIRED_COLUMNS.filter
      (fun c => !((keysOf (buildPairs header)).contains c)) := by
    refine List.mem_filter.mpr ⟨hcm1, ?_⟩
    have hc : ¬ ((keysOf (buildPairs header)).contains cm = true) :=
      fun hx => hcm2 ((hcont cm).mp hx)
    simpa using hc
  have hme : (REQUIRED_COLUMNS.filter
      (fun c => !((keysOf (buildPairs header)).contains c))).isEmpty = false := by
    cases hh : REQUIRED_COLUMNS.filter (fun c => !((keysOf (buildPairs header)).contains c)) with
    | nil => rw [hh] at hmissmem; cases hmissmem
    | cons a l => rfl
  have hres : buildHeaderMap header =
      .schemaError
        (sortStrings (REQUIRED_COLUMNS.filter
          (fun c => !((keysOf (buildPairs header)).contains c))))
        (sortStrings (EXPECTED_HEADERS.filter
          (fun c => (keysOf (buildPairs header)).contains c))) := by
    unfold buildHeaderMap
    simp only [hne, Bool.false_eq_true, if_false, hfe, hme]
  refine ⟨_, _, hres, ?_, ?_, ?_⟩
  · intro n
    rw [mem_sortStrings, List.mem_filter]
    constructor
    · rintro ⟨h1, h2⟩
      refine ⟨h1, fun hmem => ?_⟩
      rw [(hcont n).mpr hmem] at h2
      simp at h2
    · rintro ⟨h1, h2⟩
      refine ⟨h1, ?_⟩
      cases hcb : (keysOf (buildPairs header)).contains n with
      | true => exact absurd ((hcont n).mp hcb) h2
      | false => rfl
  · intro n
    rw [mem_sortStrings, List.mem_filter]
    constructor
    · rintro ⟨h1, h2⟩
      exact ⟨h1, (hcont n).mp h2⟩
    · rintro ⟨h1, h2⟩
      exact ⟨h1, (hcont n).mpr h2⟩
  · simp [getReadyTasks, hres]

/-- Witness for C6: a header with two expected names and no required ones
beyond them aborts the read with the schema error. -/
theorem getReadyTasks_schema_error_witness :
    (∃ c ∈ headerNames headerMissingW, c ∈ EXPECTED_HEADERS) ∧
    (∃ c ∈ REQUIRED_COLUMNS, c ∉ headerNames headerMissingW) ∧
    (∃ missing found,
      buildHeaderMap headerMissingW = .schemaError missing found ∧
      (∀ n, n ∈ missing ↔ (n ∈ REQUIRED_COLUMNS ∧ n ∉ headerNames headerMissingW)) ∧
      (∀ n, n ∈ found ↔ (n ∈ EXPECTED_HEADERS ∧ n ∈ headerNames headerMissingW)) ∧
      getReadyTasks oracleW "READY" (headerMissingW :: [goodRowW]) =
        .error (missing, found)) :=
  ⟨by decide, by decide,
   getReadyTasks_schema_error headerMissingW [goodRowW] oracleW "READY"
     (by decide) (by decide)⟩

/-- C7: with a schema that resolves (no schema error), a validation failure
in one data row only removes that row from the returned task list and
records the best-effort FAILED write-back for its sheet row, while all rows
before and after are processed exactly as in their positions; the read
returns ok, aborting only in the schema-error case. -/
theorem getReadyTasks_row_isolation (oracle : Oracle) (readyStatus : String)
    (header : List String) (rows1 : List (List String)) (badRow : List String)
    (rows2 : List (List String)) (msg : String)
    (hschema : isSchemaError (buildHeaderMap header) = false)
    (hbad : processRow oracle readyStatus (hmOf (buildHeaderMap header))
        (padLengthOf (hmOf (buildHeaderMap header))) (2 + rows1.length) badRow =
      .invalid msg) :
    getReadyTasks oracle readyStatus (header :: (rows1 ++ badRow :: rows2)) =
      .ok ⟨(processRows oracle readyStatus (hmOf (buildHeaderMap header))
              (padLengthOf (hmOf (buildHeaderMap header))) 2 rows1).1 ++
           (processRows oracle readyStatus (hmOf (buildHeaderMap header))
              (padLengthOf (hmOf (buildHeaderMap header))) (2 + rows1.length + 1) rows2).1,
           (processRows oracle readyStatus (hmOf (buildHeaderMap header))
              (padLengthOf (hmOf (buildHeaderMap header))) 2 rows1).2 ++
           ((2 + rows1.length, msg) ::
            (processRows oracle readyStatus (hmOf (buildHeaderMap header))
              (padLengthOf (hmOf (buildHeaderMap header))) (2 + rows1.length + 1) rows2).2)⟩ := by
  cases hh : buildHeaderMap header with
  | schemaError a b =>
      rw [hh] at hschema
      simp [isSchemaError] at hschema
  | fallbackMap =>
      rw [hh] at hbad
      simp only [getReadyTasks, hh, hmOf]
      rw [processRows_isolate oracle readyStatus none (padLengthOf none)
        rows1 badRow rows2 msg 2 hbad]
  | nameMap m =>
      rw [hh] at hbad
      simp only [getReadyTasks, hh, hmOf]
      rw [processRows_isolate oracle readyStatus (some m) (padLengthOf (some m))
        rows1 badRow rows2 msg 2 hbad]

/-- Witness for C7: a full header, one valid row, one row with an empty
title, one more valid row. -/
theorem getReadyTasks_row_isolation_witness :
    isSchemaError (buildHeaderMap headerW) = false ∧
    processRow oracleW "READY" (hmOf (buildHeaderMap headerW))
      (padLengthOf (hmOf (buildHeaderMap headerW))) (2 + [goodRowW].length) badRowW =
      .invalid "title is required" ∧
    getReadyTasks oracleW "READY" (headerW :: ([goodRowW] ++ badRowW :: [goodRow3W])) =
      .ok ⟨(processRows oracleW "READY" (hmOf (buildHeaderMap headerW))
              (padLengthOf (hmOf (buildHeaderMap headerW))) 2 [goodRowW]).1 ++
           (processRows oracleW "READY" (hmOf (buildHeaderMap headerW))
              (padLengthOf (hmOf (buildHeaderMap headerW))) (2 + [goodRowW].length + 1)
              [goodRow3W]).1,
           (processRows oracleW "READY" (hmOf (buildHeaderMap headerW))
              (padLengthOf (hmOf (buildHeaderMap headerW))) 2 [goodRowW]).2 ++
           ((2 + [goodRowW].length, "title is required") ::
            (processRows oracleW "READY" (hmOf (buildHeaderMap headerW))
              (padLengthOf (hmOf (buildHeaderMap headerW))) (2 + [goodRowW].length + 1)
              [goodRow3W]).2)⟩ :=
  ⟨by decide, by decide,
   getReadyTasks_row_isolation oracleW "READY" headerW [goodRowW] badRowW [goodRow3W]
     "title is required" (by decide) (by decide)⟩

/-- C8: when the header row is empty or none of its normalised cell names
is an expected column name, build_header_map returns the positional
fallback: column resolution then consults COLUMN_MAP, which binds task_id
to index 0, status to 1, title to 2 and the remaining columns to the fixed
legacy positions. -/
theorem buildHeaderMap_positional_fallback (header : List String)
    (h : header = [] ∨ ∀ c ∈ headerNames header, c ∉ EXPECTED_HEADERS) :
    buildHeaderMap header = .fallbackMap ∧
    (∀ c, resolveIndex (hmOf (buildHeaderMap header)) c = lookupKey COLUMN_MAP c) ∧
    COLUMN_MAP =
      [("task_id", 0), ("status", 1), ("title", 2), ("video_file_path", 3),
       ("description", 4), ("tags", 5), ("category_id", 6), ("thumbnail_path", 7),
       ("publish_at", 8), ("privacy_status", 9), ("youtube_video_id", 10),
       ("error_message", 11), ("attempts", 12), ("last_attempt_at", 13),
       ("created_at", 14), ("updated_at", 15)] := by
  have hcont : ∀ x : String,
      ((keysOf (buildPairs header)).contains x = true) ↔ x ∈ headerNames header :=
    fun x => (List.elem_iff).trans (mem_keys_buildPairs header x)
  have hfb : buildHeaderMap header = .fallbackMap := by
    rcases h with rfl | hall
    · rfl
    · cases hemp : header with
      | nil => rfl
      | cons a l =>
          have hne : header.isEmpty = false := by rw [hemp]; rfl
          have hfe : (EXPECTED_HEADERS.filter
              (fun c => (keysOf (buildPairs header)).contains c)) = [] := by
            refine List.filter_eq_nil_iff.mpr (fun c hc => ?_)
            intro hcb
            exact hall c ((hcont c).mp hcb) hc
          unfold buildHeaderMap
          rw [← hemp]
          simp only [hne, Bool.false_eq_true, if_false, hfe, List.isEmpty_nil, if_true]
  refine ⟨hfb, ?_, rfl⟩
  intro c
  rw [hfb]
  rfl

/-- Witness for C8 at a header with only unrecognised names. -/
theorem buildHeaderMap_positional_fallback_witness :
    (headerUnknownW = [] ∨ ∀ c ∈ headerNames headerUnknownW, c ∉ EXPECTED_HEADERS) ∧
    buildHeaderMap headerUnknownW = .fallbackMap ∧
    resolveIndex (hmOf (buildHeaderMap headerUnknownW)) "task_id" = some 0 ∧
    resolveIndex (hmOf (buildHeaderMap headerUnknownW)) "status" = some 1 ∧
    resolveIndex (hmOf (buildHeaderMap headerUnknownW)) "title" = some 2 := by
  have h := buildHeaderMap_positional_fallback headerUnknownW (Or.inr (by decide))
  refine ⟨Or.inr (by decide), h.1, ?_, ?_, ?_⟩
  · rw [h.2.1 "task_id"]; rfl
  · rw [h.2.1 "status"]; rfl
  · rw [h.2.1 "title"]; rfl

/-- C9: cell lookup is total on rows of any length: when the resolved
column index is out of range for the row the default value is returned (no
index error is possible), and the padding that get_ready_tasks applies
before conversion never changes any lookup result. -/
theorem getCell_total_lookup (row : List String) (c : String)
    (hm : Option HeaderMap) (dflt : String) :
    (∀ i, resolveIndex hm c = some i → row.length ≤ i →
      getCell row c dflt hm = dflt) ∧
    (∀ n, getCell (padRow row n) c dflt hm = getCell row c dflt hm) := by
  have hpad : ∀ k i, cellAt (row ++ List.replicate k "") i = cellAt row i := by
    intro k i
    unfold cellAt
    rcases Nat.lt_or_ge i row.length with hlt | hge
    · rw [List.getElem?_append_left hlt]
    · rw [List.getElem?_append_right hge, List.getElem?_replicate,
        List.getElem?_eq_none hge]
      by_cases hik : i - row.length < k
      · rw [if_pos hik]
        rfl
      · rw [if_neg hik]
  constructor
  · intro i hi hlen
    unfold getCell getCellCore
    rw [hi, Option.some_bind]
    unfold cellAt
    rw [List.getElem?_eq_none hlen]
    rfl
  · intro n
    unfold getCell getCellCore padRow
    cases hres : resolveIndex hm c with
    | none => rfl
    | some i =>
        rw [Option.some_bind, Option.some_bind, hpad]

/-- Witness for C9: a one-cell row with the updated_at column resolving to
index 15 yields the default, and padding to the full width changes nothing. -/
theorem getCell_total_lookup_witness :
    resolveIndex none "updated_at" = some 15 ∧
    (["x"] : List String).length ≤ 15 ∧
    getCell ["x"] "updated_at" "" none = "" ∧
    getCell (padRow ["x"] 16) "updated_at" "" none = getCell ["x"] "updated_at" "" none :=
  ⟨by decide, by decide,
   (getCell_total_lookup ["x"] "updated_at" none "").1 15 (by decide) (by decide),
   (getCell_total_lookup ["x"] "updated_at" none "").2 16⟩

/-- C10: every update_task_status call writes the given status string to
the status cell except IN_PROGRESS, which is written as the display label
UPLOADING; UPLOADING is not a TaskStatus member, so a row whose status cell
reads UPLOADING can never be parsed into a task (its status parse fails). -/
theorem updateTaskStatus_uploading_label :
    (∀ (r : SheetRow) (status : String) (vid err path : Option String) (now : String),
      (applyUpdateTaskStatus r status vid err path now).statusCell =
        (if status = "IN_PROGRESS" then "UPLOADING" else status)) ∧
    parseTaskStatus "UPLOADING" = none ∧
    (∀ (oracle : Oracle) (row : List String) (i : Nat) (hm : Option HeaderMap) (t : Task),
      getCell row "status" "" hm = "UPLOADING" → parseRow oracle row i hm ≠ .ok t) := by
  refine ⟨?_, by decide, ?_⟩
  · intro r status vid err path now
    rcases vid with _ | v <;> rcases err with _ | e <;> rcases path with _ | p <;> rfl
  · intro oracle row i hm t hstat heq
    have hps : parseTaskStatus "UPLOADING" = none := by decide
    simp only [parseRow, hstat, hps] at heq
    repeat' (first
      | exact Except.noConfusion heq
      | split at heq)

/-- Witness for C10: a concrete row whose status cell reads UPLOADING is
rejected by the row parser. -/
theorem updateTaskStatus_uploading_label_witness :
    (applyUpdateTaskStatus rowPrevFailedW "IN_PROGRESS" none none none "t0").statusCell =
      "UPLOADING" ∧
    getCell ["t9", "UPLOADING", "T", "/v.mp4"] "status" "" none = "UPLOADING" ∧
    parseRow oracleW ["t9", "UPLOADING", "T", "/v.mp4"] 2 none ≠
      .ok { task_id := "t9", row_index := 2, media_reference := "/v.mp4", title := "T" } := by
  refine ⟨?_, by decide, ?_⟩
  · rw [updateTaskStatus_uploading_label.1 rowPrevFailedW "IN_PROGRESS" none none none "t0"]
    rfl
  · exact updateTaskStatus_uploading_label.2.2 oracleW ["t9", "UPLOADING", "T", "/v.mp4"] 2 none
      { task_id := "t9", row_index := 2, media_reference := "/v.mp4", title := "T" } (by decide)

end YtUpload
